import Mathlib

/-!
Shallow embedding of the Omicli 3D viewer.

The repository has two near-identical entry points: `src/main.js` and a second
unnamed entry file (`src/unnamed/part_000`, the solutions-page variant).  Both
manage a registry of loaded glTF models (`models`), a `currentModel` pointer,
and a directional-light target, and switch the visible model from a scroll
handler.

Modelling conventions:
* Numbers coming from the DOM (scroll offsets, element offsets, heights) and
  from three.js vectors are modelled as rationals (`ℚ`); the divergences we
  exhibit are far outside any floating-point tolerance.
* Each loaded model object is identified by the registry key under which it is
  stored (every successful load creates a fresh `gltf.scene` object, and the
  code stores each such object under exactly one key), so the JS reference
  comparison `currentModel !== models.car` becomes a key comparison, and the
  heap of `visible` flags becomes the association list `SceneState.models`.
* A JS `TypeError` (reading a property of `undefined`, e.g.
  `models.car.visible` when the car never loaded, or `sections[1].offsetTop`
  with fewer than two sections) is modelled by returning `none`.
* `Option String` models a `data-model` attribute / `modelKey` argument that
  may be `null`; the JS truthiness test `if (modelKey && ...)` additionally
  rejects the empty string, which the embedding mirrors.
-/

namespace Omicli

/-! ## Vectors and scene-graph geometry (for `prepareModel`) -/

/-- Component-wise rational 3-vector, standing in for `THREE.Vector3`. -/
@[ext]
structure Vec3 where
  x : ℚ
  y : ℚ
  z : ℚ
  deriving Repr, DecidableEq

instance : Add Vec3 := ⟨fun a b => ⟨a.x + b.x, a.y + b.y, a.z + b.z⟩⟩
instance : Sub Vec3 := ⟨fun a b => ⟨a.x - b.x, a.y - b.y, a.z - b.z⟩⟩
instance : Mul Vec3 := ⟨fun a b => ⟨a.x * b.x, a.y * b.y, a.z * b.z⟩⟩

@[simp] theorem Vec3.add_x (a b : Vec3) : (a + b).x = a.x + b.x := rfl
@[simp] theorem Vec3.add_y (a b : Vec3) : (a + b).y = a.y + b.y := rfl
@[simp] theorem Vec3.add_z (a b : Vec3) : (a + b).z = a.z + b.z := rfl
@[simp] theorem Vec3.sub_x (a b : Vec3) : (a - b).x = a.x - b.x := rfl
@[simp] theorem Vec3.sub_y (a b : Vec3) : (a - b).y = a.y - b.y := rfl
@[simp] theorem Vec3.sub_z (a b : Vec3) : (a - b).z = a.z - b.z := rfl
@[simp] theorem Vec3.mul_x (a b : Vec3) : (a * b).x = a.x * b.x := rfl
@[simp] theorem Vec3.mul_y (a b : Vec3) : (a * b).y = a.y * b.y := rfl
@[simp] theorem Vec3.mul_z (a b : Vec3) : (a * b).z = a.z * b.z := rfl

/-- Scalar multiple of a `Vec3` (`multiplyScalar`). -/
def Vec3.smul (q : ℚ) (v : Vec3) : Vec3 := ⟨q * v.x, q * v.y, q * v.z⟩

@[simp] theorem Vec3.smul_x (q : ℚ) (v : Vec3) : (Vec3.smul q v).x = q * v.x := rfl
@[simp] theorem Vec3.smul_y (q : ℚ) (v : Vec3) : (Vec3.smul q v).y = q * v.y := rfl
@[simp] theorem Vec3.smul_z (q : ℚ) (v : Vec3) : (Vec3.smul q v).z = q * v.z := rfl

/-- Component-wise minimum (`Box3` expansion keeps the min corner). -/
def vmin (a b : Vec3) : Vec3 := ⟨min a.x b.x, min a.y b.y, min a.z b.z⟩

/-- Component-wise maximum (`Box3` expansion keeps the max corner). -/
def vmax (a b : Vec3) : Vec3 := ⟨max a.x b.x, max a.y b.y, max a.z b.z⟩

/-- Material of a mesh: `roughness` / `metalness` are `none` when the channel
is absent on the concrete material (the duck-typed `typeof ... !== 'undefined'`
check in `prepareModel`). -/
structure Material where
  needsUpdate : Bool
  roughness : Option ℚ
  metalness : Option ℚ
  deriving Repr, DecidableEq

/-- One mesh of the subtree: its geometry vertices expressed in the root
node's local frame (child transforms are fixed data that `prepareModel` never
touches, so they are pre-composed into the vertex coordinates), plus the
shadow flags and optional material that `model.traverse` mutates. -/
structure Mesh where
  points : List Vec3
  castShadow : Bool
  receiveShadow : Bool
  material : Option Material
  deriving Repr, DecidableEq

/-- Root scene-graph node handed to `prepareModel` (`gltf.scene`): its own
`position` and `scale`, and the meshes of its subtree.  Rotation is identity,
as for the loaded glTF roots the code handles. -/
structure Node3D where
  position : Vec3
  scale : Vec3
  meshes : List Mesh
  deriving Repr, DecidableEq

/-- Vertices of the node's subtree in the node's local frame. -/
def localPoints (n : Node3D) : List Vec3 :=
  (n.meshes.map Mesh.points).flatten

/-- Vertices of the node's subtree in world coordinates: the node applies
scale then translation (identity rotation), as `updateMatrixWorld` does for
`new THREE.Box3().setFromObject(model)`. -/
def worldPoints (n : Node3D) : List Vec3 :=
  (localPoints n).map (fun p => n.position + n.scale * p)

/-- Center of the axis-aligned bounding box of a point cloud:
`box.getCenter(...)` returns `(min + max) / 2`, and `(0,0,0)` for the empty
box. -/
def boxCenter (ps : List Vec3) : Vec3 :=
  match ps with
  | [] => ⟨0, 0, 0⟩
  | p :: rest => Vec3.smul (1 / 2) (rest.foldl vmin p + rest.foldl vmax p)

/-- Material normalization inside `model.traverse`: `needsUpdate = true`,
then `roughness := 0.6` / `metalness := 0.1` only when the channel exists. -/
def prepareMaterial (m : Material) : Material :=
  { m with
    needsUpdate := true
    roughness := m.roughness.map (fun _ => (6 / 10 : ℚ))
    metalness := m.metalness.map (fun _ => (1 / 10 : ℚ)) }

/-- Per-mesh effect of the `model.traverse` callback in `prepareModel`. -/
def prepareMesh (m : Mesh) : Mesh :=
  { m with
    castShadow := true
    receiveShadow := true
    material := m.material.map prepareMaterial }

/-- Embedding of `prepareModel(model, isCar)` (src/main.js lines 53-84,
identical in the second entry point): compute the bounding box of the node in
its current world transform, subtract the box center from `position`, then
overwrite `scale` with `1.2` (car) or `0.8`, then traverse the meshes. -/
def prepareModel (n : Node3D) (isCar : Bool) : Node3D :=
  let center := boxCenter (worldPoints n)
  let n1 : Node3D := { n with position := n.position - center }
  let s : ℚ := if isCar then 12 / 10 else 8 / 10
  { n1 with scale := ⟨s, s, s⟩, meshes := n1.meshes.map prepareMesh }

/-! ## Scene state: `models`, `currentModel`, light target -/

/-- Module-level mutable state of an entry point: the `models` registry
(association list key ↦ `visible` flag of the stored model object),
`currentModel` (identified by its registry key), and the directional light's
`target`. -/
structure SceneState where
  models : List (String × Bool)
  currentModel : Option String
  lightTarget : Option String
  deriving Repr, DecidableEq

/-- Property lookup `models[key]`: the visible flag of the model stored under
`key`, or `none` when no model is registered under `key`. -/
def lookupKey (ms : List (String × Bool)) (k : String) : Option Bool :=
  match ms with
  | [] => none
  | (a, b) :: rest => if a = k then some b else lookupKey rest k

/-- Assignment `object.visible = b` on the model registered under `key`
(no effect on the registry when `key` is absent). -/
def setVisible (ms : List (String × Bool)) (key : String) (b : Bool) :
    List (String × Bool) :=
  ms.map (fun kv => if kv.1 = key then (kv.1, b) else kv)

/-- Assignment `models[key] = model` where the stored model object has
visible flag `vis`: overwrites an existing entry, otherwise appends. -/
def storeModel (ms : List (String × Bool)) (key : String) (vis : Bool) :
    List (String × Bool) :=
  if (lookupKey ms key).isSome then setVisible ms key vis
  else ms ++ [(key, vis)]

/-- First statement of `switchModel`: `if (currentModel)
currentModel.visible = false;`. -/
def hideCurrent (st : SceneState) : SceneState :=
  match st.currentModel with
  | some c => { st with models := setVisible st.models c false }
  | none => st

/-- Body of the second `if` of `switchModel` (also of the car branch of the
scroll handlers): make the model stored under `k` visible and current, and
retarget the directional light at it (`updateMatrixWorld` recomputes its
transform synchronously; the aim point is what the state records). -/
def showModel (st : SceneState) (k : String) : SceneState :=
  { st with
    models := setVisible st.models k true
    currentModel := some k
    lightTarget := some k }

/-- Embedding of `switchModel(modelKey)` (src/main.js lines 176-187,
textually identical in the second entry point at lines 187-198): first hide
the current model if any, then — only if `modelKey` is truthy and registered —
make it current, visible, and the light target. -/
def switchModel (st : SceneState) (modelKey : Option String) : SceneState :=
  match modelKey with
  | none => hideCurrent st
  | some k =>
    if k ≠ "" ∧ (lookupKey (hideCurrent st).models k).isSome then
      showModel (hideCurrent st) k
    else hideCurrent st

/-! ## Scroll sections and the scroll handlers -/

/-- One `.content-section` element as the handlers read it: `offsetTop`,
`offsetHeight`, and the `data-model` attribute (`none` when absent). -/
structure ScrollSection where
  offsetTop : ℚ
  offsetHeight : ℚ
  modelKey : Option String
  deriving Repr, DecidableEq

/-- Range test of the section loop:
`scrollPosition >= sectionTop - innerHeight/2 &&
 scrollPosition < sectionTop + sectionHeight - innerHeight/2`. -/
def sectionMatches (scrollY innerHeight : ℚ) (s : ScrollSection) : Bool :=
  decide (s.offsetTop - innerHeight / 2 ≤ scrollY) &&
    decide (scrollY < s.offsetTop + s.offsetHeight - innerHeight / 2)

/-- The `sections.forEach` loop body applied over a list of sections: call
`switchModel(section.dataset key)` on every section whose range contains the
scroll position. -/
def scanSections (sections : List ScrollSection) (scrollY innerHeight : ℚ)
    (st : SceneState) : SceneState :=
  sections.foldl
    (fun acc s =>
      if sectionMatches scrollY innerHeight s then switchModel acc s.modelKey
      else acc)
    st

/-- Embedding of the first branch of `handleScroll` (src/main.js lines
150-158): when the scroll position is above the second section's lower bound,
re-show the car.  `none` models the `TypeError` thrown by
`models.car.visible = true` when no car model is registered while some model
is current. -/
def showCarIfHome (st : SceneState) : Option SceneState :=
  match st.currentModel with
  | none => some st
  | some c =>
    if (lookupKey st.models "car").isSome then
      if c = "car" then some st
      else some (showModel { st with models := setVisible st.models c false } "car")
    else none

/-- Embedding of `handleScroll` from src/main.js (lines 145-174).  The
handler reads `sections[1].offsetTop` unconditionally (`none` when fewer than
two sections exist), takes the car branch for scroll positions strictly below
the second section's lower bound, and otherwise scans the sections *skipping
index 0* (`if (index === 0) return`). -/
def handleScroll (sections : List ScrollSection) (scrollY innerHeight : ℚ)
    (st : SceneState) : Option SceneState :=
  match sections[1]? with
  | none => none
  | some s1 =>
    if scrollY < s1.offsetTop - innerHeight / 2 then showCarIfHome st
    else some (scanSections (sections.drop 1) scrollY innerHeight st)

/-- Embedding of `handleScroll` from the second entry point
(src/unnamed/part_000 lines 158-185).  On the solutions page the car branch
(and with it the `sections[1]` read, short-circuited by `&&`) is skipped;
the section scan iterates over *all* sections, without the index-0 skip of
src/main.js. -/
def handleScrollAlt (isSolutionsPage : Bool) (sections : List ScrollSection)
    (scrollY innerHeight : ℚ) (st : SceneState) : Option SceneState :=
  if isSolutionsPage then some (scanSections sections scrollY innerHeight st)
  else
    match sections[1]? with
    | none => none
    | some s1 =>
      if scrollY < s1.offsetTop - innerHeight / 2 then showCarIfHome st
      else some (scanSections sections scrollY innerHeight st)

/-! ## Asset loading (`loadCarModel`, `loadOtherModels`) -/

/-- State of the loading pipeline: every load request handed to
`loader.load` so far (key and path, in call order), the scene state mutated
by the load callbacks, and the progress container (`display: none` toggle and
`textContent`). -/
structure LoaderState where
  requests : List (String × String)
  viewer : SceneState
  progressHidden : Bool
  progressText : String
  deriving Repr, DecidableEq

/-- Module state right after the top-level script runs, before any load
completes: empty registry, no current model, default light target. -/
def emptyScene : SceneState := ⟨[], none, none⟩

/-- Loader state at startup (src/main.js line 190 `loadCarModel()` has not
yet completed any request). -/
def initialLoader : LoaderState := ⟨[], emptyScene, false, ""⟩

/-- The `modelPaths` table of `loadOtherModels` (src/main.js lines 120-124). -/
def modelPaths : List (String × String) :=
  [("livingroom", "public/cozy_living_room_baked_gltf/scene.gltf"),
   ("bedroom", "public/millennium_falcon/scene.gltf"),
   ("kitchen", "public/city_gltf/scene.gltf")]

/-- Initiation effect of `loadOtherModels()` (src/main.js lines 119-142): the
`for ... of Object.entries(modelPaths)` loop calls `loader.load(path, ...)`
once per entry, unconditionally — there is no check of any existing entry in
`models` or of an in-flight request. -/
def loadOtherModels (ls : LoaderState) : LoaderState :=
  { ls with requests := ls.requests ++ modelPaths }

/-- Scene effect of a background load success callback (src/main.js lines
129-135): prepare the model, set `visible = false`, store it under its key.
The current model and light target are untouched. -/
def registerBackground (st : SceneState) (key : String) : SceneState :=
  { st with models := storeModel st.models key false }

/-- Success callback of `loader.load` inside `loadOtherModels`. -/
def onOtherLoaded (ls : LoaderState) (key : String) : LoaderState :=
  { ls with viewer := registerBackground ls.viewer key }

/-- Error callback of `loader.load` inside `loadOtherModels` (src/main.js
lines 137-139): `console.error` only — the registry, the other in-flight
loads and the caller are unaffected. -/
def onOtherFailed (ls : LoaderState) (_key : String) : LoaderState :=
  ls

/-- Success callback of `loadCarModel` (src/main.js lines 92-102): the
prepared car scene (visible by default) becomes `models.car` and
`currentModel`, the progress container is hidden, and `loadOtherModels()` is
triggered.  The directional light is not retargeted here. -/
def onCarLoaded (ls : LoaderState) : LoaderState :=
  loadOtherModels
    { ls with
      viewer :=
        { ls.viewer with
          models := storeModel ls.viewer.models "car" true
          currentModel := some "car" }
      progressHidden := true }

/-- Error callback of `loadCarModel` (src/main.js lines 109-114): write the
error text to the progress container and still trigger `loadOtherModels()`;
nothing is registered and no exception propagates. -/
def onCarFailed (ls : LoaderState) : LoaderState :=
  loadOtherModels
    { ls with
      progressText := "ERROR LOADING CONCEPT CAR. CHECK CONSOLE FOR DETAILS." }

/-- Completion event of one background load: the loader collaborator invokes
exactly one of the two callbacks per initiated request. -/
inductive LoadEvent where
  | success (key : String)
  | failure (key : String)
  deriving Repr, DecidableEq

/-- Dispatch of a single background-load completion. -/
def applyLoadEvent (ls : LoaderState) (e : LoadEvent) : LoaderState :=
  match e with
  | .success k => onOtherLoaded ls k
  | .failure k => onOtherFailed ls k

/-- A whole (arbitrarily interleaved) sequence of background-load
completions. -/
def runLoadEvents (ls : LoaderState) (es : List LoadEvent) : LoaderState :=
  es.foldl applyLoadEvent ls

/-- Number of loads initiated so far for `k`. -/
def countRequests (ls : LoaderState) (k : String) : Nat :=
  (ls.requests.filter (fun r => decide (r.1 = k))).length

/-! ## Event sequences over the scene state -/

/-- One observable event after the primary load: a direct `switchModel` call,
a scroll-handler invocation (src/main.js `handleScroll`), or the completion
of a background load. -/
inductive ViewerEvent where
  | switch (modelKey : Option String)
  | scroll (sections : List ScrollSection) (scrollY innerHeight : ℚ)
  | backgroundLoaded (key : String)
  deriving Repr, DecidableEq

/-- Dispatch of a single event; `none` models an uncaught `TypeError` inside
`handleScroll`. -/
def applyEvent (st : SceneState) (e : ViewerEvent) : Option SceneState :=
  match e with
  | .switch k => some (switchModel st k)
  | .scroll sections y vh => handleScroll sections y vh st
  | .backgroundLoaded k => some (registerBackground st k)

/-- Run a finite event sequence; `none` as soon as one event throws. -/
def runEvents : SceneState → List ViewerEvent → Option SceneState
  | st, [] => some st
  | st, e :: es =>
    match applyEvent st e with
    | none => none
    | some st2 => runEvents st2 es

/-- Scroll event with a layout of at least two sections (the handlers read
`sections[1]` unconditionally; the spec leaves fewer than two sections
undefined). -/
def isScrollEvent (e : ViewerEvent) : Bool :=
  match e with
  | .scroll sections _ _ => 2 ≤ sections.length
  | _ => false

/-- Key invariant of the registry: every registered model whose `visible`
flag is `true` is the current model. -/
def visibleImpliesCurrent (st : SceneState) : Prop :=
  ∀ p ∈ st.models, p.2 = true → st.currentModel = some p.1

/-- At most one registered model is visible (any two visible entries carry
the same key). -/
def atMostOneVisible (st : SceneState) : Prop :=
  ∀ p ∈ st.models, ∀ q ∈ st.models, p.2 = true → q.2 = true → p.1 = q.1

/-! ## Basic lemmas about the registry operations -/

@[simp]
theorem lookupKey_nil (j : String) : lookupKey [] j = none := rfl

@[simp]
theorem lookupKey_cons (a : String) (v : Bool) (rest : List (String × Bool))
    (j : String) :
    lookupKey ((a, v) :: rest) j = if a = j then some v else lookupKey rest j := rfl

@[simp]
theorem setVisible_nil (k : String) (b : Bool) : setVisible [] k b = [] := rfl

@[simp]
theorem setVisible_cons (a : String) (v : Bool) (rest : List (String × Bool))
    (k : String) (b : Bool) :
    setVisible ((a, v) :: rest) k b =
      (if a = k then (a, b) else (a, v)) :: setVisible rest k b := by
  by_cases h : a = k <;> simp [setVisible, h]

theorem lookupKey_setVisible (ms : List (String × Bool)) (k : String) (b : Bool)
    (j : String) :
    lookupKey (setVisible ms k b) j =
      (lookupKey ms j).map (fun v => if j = k then b else v) := by
  induction ms with
  | nil => rfl
  | cons p rest ih =>
    obtain ⟨a, v⟩ := p
    by_cases hak : a = k
    · subst hak
      by_cases haj : a = j
      · subst haj; simp [ih]
      · simp [haj, ih]
    · by_cases haj : a = j
      · subst haj; simp [hak, Ne.symm hak]
      · simp [hak, haj, ih]

theorem lookupKey_setVisible_isSome (ms : List (String × Bool)) (k : String)
    (b : Bool) (j : String) :
    (lookupKey (setVisible ms k b) j).isSome = (lookupKey ms j).isSome := by
  rw [lookupKey_setVisible]
  cases lookupKey ms j <;> rfl

theorem lookupKey_append_isSome (ms1 ms2 : List (String × Bool)) (j : String) :
    (lookupKey (ms1 ++ ms2) j).isSome =
      ((lookupKey ms1 j).isSome || (lookupKey ms2 j).isSome) := by
  induction ms1 with
  | nil => simp
  | cons p rest ih =>
    obtain ⟨a, v⟩ := p
    by_cases haj : a = j <;> simp [haj, ih]

theorem lookupKey_storeModel_isSome (ms : List (String × Bool)) (k : String)
    (v : Bool) (j : String) :
    (lookupKey (storeModel ms k v) j).isSome = true ↔
      ((lookupKey ms j).isSome = true ∨ j = k) := by
  unfold storeModel
  by_cases hk : (lookupKey ms k).isSome
  · rw [if_pos hk, lookupKey_setVisible_isSome]
    constructor
    · exact fun h => Or.inl h
    · rintro (h | rfl)
      · exact h
      · exact hk
  · rw [if_neg hk, lookupKey_append_isSome]
    by_cases hjk : j = k
    · subst hjk; simp
    · simp [hjk, Ne.symm hjk]

/-! ## Invariant lemmas: at most one visible model -/


theorem mem_setVisible (ms : List (String × Bool)) (k : String) (b : Bool)
    (p : String × Bool) (hp : p ∈ setVisible ms k b) :
    ∃ q ∈ ms, p = if q.1 = k then (q.1, b) else q := by
  rcases List.mem_map.mp hp with ⟨q, hq, rfl⟩
  exact ⟨q, hq, rfl⟩

theorem allInvisible_inv (st : SceneState)
    (h : ∀ p ∈ st.models, p.2 = false) : visibleImpliesCurrent st := by
  intro p hp hv
  rw [h p hp] at hv
  cases hv

theorem inv_none_allInvisible (st : SceneState) (h : visibleImpliesCurrent st)
    (hc : st.currentModel = none) : ∀ p ∈ st.models, p.2 = false := by
  intro p hp
  cases hv : p.2
  · rfl
  · have h2 := h p hp hv
    rw [hc] at h2
    cases h2

theorem hide_allInvisible (st : SceneState) (c : String)
    (h : visibleImpliesCurrent st) (hc : st.currentModel = some c) :
    ∀ p ∈ setVisible st.models c false, p.2 = false := by
  intro p hp
  rcases mem_setVisible _ _ _ _ hp with ⟨q, hq, rfl⟩
  by_cases hqc : q.1 = c
  · simp [hqc]
  · rw [if_neg hqc]
    cases hv : q.2
    · rfl
    · exfalso
      have h2 := h q hq hv
      rw [hc] at h2
      injection h2 with h3
      exact hqc h3.symm

theorem hideCurrent_allInvisible (st : SceneState)
    (h : visibleImpliesCurrent st) :
    ∀ p ∈ (hideCurrent st).models, p.2 = false := by
  cases st with
  | mk ms cur lt =>
    cases cur with
    | none => exact inv_none_allInvisible _ h rfl
    | some c => exact hide_allInvisible ⟨ms, some c, lt⟩ c h rfl

@[simp]
theorem hideCurrent_currentModel (st : SceneState) :
    (hideCurrent st).currentModel = st.currentModel := by
  cases st with
  | mk ms cur lt => cases cur <;> rfl

@[simp]
theorem hideCurrent_lightTarget (st : SceneState) :
    (hideCurrent st).lightTarget = st.lightTarget := by
  cases st with
  | mk ms cur lt => cases cur <;> rfl

theorem showModel_inv (st : SceneState) (k : String)
    (h : ∀ p ∈ st.models, p.2 = false) :
    visibleImpliesCurrent (showModel st k) := by
  intro p hp hv
  rcases mem_setVisible _ _ _ _ hp with ⟨q, hq, rfl⟩
  by_cases hqk : q.1 = k
  · simp [showModel, hqk]
  · rw [if_neg hqk] at hv
    rw [h q hq] at hv
    cases hv

theorem switchModel_inv (st : SceneState) (k : Option String)
    (h : visibleImpliesCurrent st) :
    visibleImpliesCurrent (switchModel st k) := by
  have h1 : ∀ p ∈ (hideCurrent st).models, p.2 = false :=
    hideCurrent_allInvisible st h
  cases k with
  | none => exact allInvisible_inv _ h1
  | some key =>
    show visibleImpliesCurrent
      (if key ≠ "" ∧ (lookupKey (hideCurrent st).models key).isSome then
        showModel (hideCurrent st) key
       else hideCurrent st)
    split
    · exact showModel_inv _ key h1
    · exact allInvisible_inv _ h1


theorem showCarIfHome_inv (st st2 : SceneState) (h : visibleImpliesCurrent st)
    (he : showCarIfHome st = some st2) : visibleImpliesCurrent st2 := by
  unfold showCarIfHome at he
  split at he
  · injection he with he2
    exact he2 ▸ h
  · next c hc =>
    split at he
    · split at he
      · injection he with he2
        exact he2 ▸ h
      · injection he with he2
        subst he2
        exact showModel_inv _ "car" (hide_allInvisible st c h hc)
    · cases he

theorem scanSections_inv (sections : List ScrollSection) (scrollY vh : ℚ)
    (st : SceneState) (h : visibleImpliesCurrent st) :
    visibleImpliesCurrent (scanSections sections scrollY vh st) := by
  induction sections generalizing st with
  | nil => exact h
  | cons s rest ih =>
    unfold scanSections
    rw [List.foldl_cons]
    by_cases hm : sectionMatches scrollY vh s = true
    · rw [if_pos hm]
      exact ih _ (switchModel_inv st s.modelKey h)
    · rw [if_neg hm]
      exact ih _ h

theorem handleScroll_inv (sections : List ScrollSection) (scrollY vh : ℚ)
    (st st2 : SceneState) (h : visibleImpliesCurrent st)
    (he : handleScroll sections scrollY vh st = some st2) :
    visibleImpliesCurrent st2 := by
  unfold handleScroll at he
  split at he
  · cases he
  · split at he
    · exact showCarIfHome_inv st st2 h he
    · injection he with he2
      exact he2 ▸ scanSections_inv _ scrollY vh st h

theorem registerBackground_inv (st : SceneState) (k : String)
    (h : visibleImpliesCurrent st) :
    visibleImpliesCurrent (registerBackground st k) := by
  intro p hp hv
  unfold registerBackground storeModel at hp
  split at hp
  · rcases mem_setVisible _ _ _ _ hp with ⟨q, hq, rfl⟩
    by_cases hqk : q.1 = k
    · rw [if_pos hqk] at hv
      cases hv
    · rw [if_neg hqk] at hv ⊢
      exact h q hq hv
  · rcases List.mem_append.mp hp with hq | hq
    · exact h p hq hv
    · rw [List.mem_singleton.mp hq] at hv
      cases hv

theorem runEvents_inv (es : List ViewerEvent) (st st2 : SceneState)
    (h : visibleImpliesCurrent st) (he : runEvents st es = some st2) :
    visibleImpliesCurrent st2 := by
  induction es generalizing st with
  | nil =>
    unfold runEvents at he
    injection he with he2
    exact he2 ▸ h
  | cons e rest ih =>
    unfold runEvents at he
    cases e with
    | switch k =>
      exact ih _ (switchModel_inv st k h) he
    | scroll sections y vh =>
      simp only [applyEvent] at he
      cases hs : handleScroll sections y vh st with
      | none => rw [hs] at he; cases he
      | some st1 =>
        rw [hs] at he
        exact ih _ (handleScroll_inv sections y vh st st1 h hs) he
    | backgroundLoaded k =>
      exact ih _ (registerBackground_inv st k h) he

theorem atMostOneVisible_of_inv (st : SceneState)
    (h : visibleImpliesCurrent st) : atMostOneVisible st := by
  intro p hp q hq hpv hqv
  have h1 := h p hp hpv
  have h2 := h q hq hqv
  rw [h1] at h2
  injection h2

/-! ## Claim C1: switchTo with an unknown or unloaded key -/


theorem hideCurrent_lookup_isSome (st : SceneState) (k : String) :
    (lookupKey (hideCurrent st).models k).isSome = (lookupKey st.models k).isSome := by
  obtain ⟨ms, cur, lt⟩ := st
  cases cur with
  | none => rfl
  | some c => exact lookupKey_setVisible_isSome ms c false k

theorem switchModel_some_unknown (st : SceneState) (k : String)
    (h : lookupKey st.models k = none) :
    switchModel st (some k) = hideCurrent st := by
  have hi : switchModel st (some k) =
      if k ≠ "" ∧ (lookupKey (hideCurrent st).models k).isSome = true then
        showModel (hideCurrent st) k
      else hideCurrent st := rfl
  rw [hi, if_neg]
  rintro ⟨-, h2⟩
  rw [hideCurrent_lookup_isSome, h] at h2
  cases h2

theorem hideCurrent_of_none (st : SceneState) (hc : st.currentModel = none) :
    hideCurrent st = st := by
  unfold hideCurrent
  rw [hc]

/-- Claim C1 (corrected): calling `switchModel` with a key that is unknown or
not yet loaded leaves `currentModel`, the light target, and the visible flag
of every registered model other than the current one unchanged, and is a full
no-op when no model is current — but, contrary to the claim, it does set the
current model's visible flag to `false`. -/
theorem switchModel_unknown_key (st : SceneState) (k : String)
    (h : lookupKey st.models k = none) :
    (switchModel st (some k)).currentModel = st.currentModel ∧
    (switchModel st (some k)).lightTarget = st.lightTarget ∧
    (st.currentModel = none → switchModel st (some k) = st) ∧
    (∀ c, st.currentModel = some c →
      lookupKey (switchModel st (some k)).models c =
        (lookupKey st.models c).map (fun _ => false) ∧
      ∀ j, j ≠ c → lookupKey (switchModel st (some k)).models j = lookupKey st.models j) := by
  rw [switchModel_some_unknown st k h]
  refine ⟨hideCurrent_currentModel st, hideCurrent_lightTarget st, hideCurrent_of_none st, ?_⟩
  intro c hc
  unfold hideCurrent
  rw [hc]
  constructor
  · rw [lookupKey_setVisible]
    cases lookupKey st.models c <;> simp
  · intro j hj
    rw [lookupKey_setVisible]
    cases lookupKey st.models j <;> simp [hj]

/-- Claim C1 counterexample: with the car registered, visible and current,
`switchModel("nonexistent")` is not a no-op — it hides the car, so the
visible flags are not "exactly the same after the call as before it". -/
theorem switchModel_unknown_not_noop :
    switchModel ⟨[("car", true)], some "car", some "car"⟩ (some "nonexistent") ≠
      (⟨[("car", true)], some "car", some "car"⟩ : SceneState) ∧
    (switchModel ⟨[("car", true)], some "car", some "car"⟩ (some "nonexistent")).models =
      [("car", false)] := by
  have hm : (switchModel ⟨[("car", true)], some "car", some "car"⟩ (some "nonexistent")).models =
      [("car", false)] := rfl
  refine ⟨fun hEq => ?_, hm⟩
  rw [hEq] at hm
  simp at hm

/-- Claim C1 witness: the amended theorem evaluated at a concrete state. -/
theorem switchModel_unknown_key_witness :
    (switchModel ⟨[("car", true)], some "car", some "car"⟩ (some "nonexistent")).currentModel
      = some "car" ∧
    lookupKey (switchModel ⟨[("car", true)], some "car", some "car"⟩
        (some "nonexistent")).models "car" = some false := by
  have h := switchModel_unknown_key ⟨[("car", true)], some "car", some "car"⟩ "nonexistent" rfl
  refine ⟨h.1, ?_⟩
  rw [(h.2.2.2 "car" rfl).1]
  rfl

/-! ## Claims C10 and C2 -/


/-- Claim C10 (confirmed): invoking `switchModel` with a null/undefined key
while some model is current sets the current model's visible flag to `false`
(leaving zero visible models), while `currentModel` still references the
now-hidden, still-registered model. -/
theorem switchModel_null_hides_current (st : SceneState) (c : String)
    (hc : st.currentModel = some c)
    (hreg : (lookupKey st.models c).isSome = true)
    (hinv : visibleImpliesCurrent st) :
    (switchModel st none).currentModel = some c ∧
    (lookupKey (switchModel st none).models c).isSome = true ∧
    (∀ p ∈ (switchModel st none).models, p.2 = false) := by
  have hsw : switchModel st none = hideCurrent st := rfl
  rw [hsw]
  refine ⟨?_, ?_, hideCurrent_allInvisible st hinv⟩
  · rw [hideCurrent_currentModel, hc]
  · rw [hideCurrent_lookup_isSome]
    exact hreg

/-- Claim C10 witness: the theorem evaluated at a concrete state. -/
theorem switchModel_null_hides_current_witness :
    (switchModel ⟨[("car", true)], some "car", some "car"⟩ none).currentModel = some "car" ∧
    (lookupKey (switchModel ⟨[("car", true)], some "car", some "car"⟩ none).models
      "car").isSome = true ∧
    (∀ p ∈ (switchModel ⟨[("car", true)], some "car", some "car"⟩ none).models,
      p.2 = false) :=
  switchModel_null_hides_current ⟨[("car", true)], some "car", some "car"⟩ "car" rfl rfl
    (by unfold visibleImpliesCurrent; decide)

/-- Claim C2 (confirmed): from any state satisfying the single-visible
invariant (in particular the state right after the primary load completes),
every terminating finite sequence of `switchModel` calls, scroll-handler
invocations, and background-load registrations preserves the invariant, so
at most one registered model is visible at any point. -/
theorem atMostOneVisible_run (st0 : SceneState) (es : List ViewerEvent)
    (st1 : SceneState) (h0 : visibleImpliesCurrent st0)
    (hrun : runEvents st0 es = some st1) :
    atMostOneVisible st1 ∧ visibleImpliesCurrent st1 :=
  have h1 := runEvents_inv es st0 st1 h0 hrun
  ⟨atMostOneVisible_of_inv st1 h1, h1⟩

/-- Claim C2 witness: the theorem evaluated from the actual state produced
by the primary-load success callback, over a concrete event sequence
containing an unknown-key switch and a scroll. -/
theorem atMostOneVisible_run_witness :
    visibleImpliesCurrent (onCarLoaded initialLoader).viewer ∧
    ∃ st1,
      runEvents (onCarLoaded initialLoader).viewer
          [ViewerEvent.backgroundLoaded "livingroom",
           ViewerEvent.switch (some "nonexistent"),
           ViewerEvent.scroll [⟨0, 500, none⟩, ⟨500, 500, some "livingroom"⟩] 600 400] =
        some st1 ∧
      atMostOneVisible st1 := by
  have h0 : visibleImpliesCurrent (onCarLoaded initialLoader).viewer := by
    unfold visibleImpliesCurrent
    decide
  have hr : runEvents (onCarLoaded initialLoader).viewer
      [ViewerEvent.backgroundLoaded "livingroom",
       ViewerEvent.switch (some "nonexistent"),
       ViewerEvent.scroll [⟨0, 500, none⟩, ⟨500, 500, some "livingroom"⟩] 600 400] =
      some ⟨[("car", false), ("livingroom", true)], some "livingroom", some "livingroom"⟩ := by
    norm_num +decide [runEvents, applyEvent, handleScroll, scanSections, sectionMatches,
      switchModel, hideCurrent, showModel, setVisible, lookupKey, showCarIfHome,
      registerBackground, storeModel, onCarLoaded, initialLoader, loadOtherModels,
      emptyScene, modelPaths]
  exact ⟨h0, _, hr, (atMostOneVisible_run _ _ _ h0 hr).1⟩

/-! ## Claim C3: total asset-load failure is safe -/


theorem switchModel_emptyScene (k : Option String) :
    switchModel emptyScene k = emptyScene := by
  cases k with
  | none => rfl
  | some key =>
    have hi : switchModel emptyScene (some key) =
        if key ≠ "" ∧ (lookupKey (hideCurrent emptyScene).models key).isSome = true then
          showModel (hideCurrent emptyScene) key
        else hideCurrent emptyScene := rfl
    rw [hi, if_neg]
    · rfl
    · rintro ⟨-, h2⟩
      cases h2

theorem scanSections_emptyScene (sections : List ScrollSection) (y vh : ℚ) :
    scanSections sections y vh emptyScene = emptyScene := by
  induction sections with
  | nil => rfl
  | cons s rest ih =>
    unfold scanSections
    rw [List.foldl_cons]
    by_cases hm : sectionMatches y vh s = true
    · rw [if_pos hm, switchModel_emptyScene]
      exact ih
    · rw [if_neg hm]
      exact ih

theorem handleScroll_emptyScene (sections : List ScrollSection) (y vh : ℚ)
    (h : 2 ≤ sections.length) :
    handleScroll sections y vh emptyScene = some emptyScene := by
  cases sections with
  | nil => simp at h
  | cons a rest =>
    cases rest with
    | nil => simp at h
    | cons b rest2 =>
      have hred : handleScroll (a :: b :: rest2) y vh emptyScene =
          if y < b.offsetTop - vh / 2 then showCarIfHome emptyScene
          else some (scanSections (b :: rest2) y vh emptyScene) := by
        simp only [handleScroll, List.getElem?_cons_succ, List.getElem?_cons_zero,
          List.drop_succ_cons, List.drop_zero]
      rw [hred]
      split
      · rfl
      · rw [scanSections_emptyScene]

theorem runEvents_emptyScene (es : List ViewerEvent) :
    (∀ e ∈ es, isScrollEvent e = true) → runEvents emptyScene es = some emptyScene := by
  induction es with
  | nil => intro _; rfl
  | cons e rest ih =>
    intro h
    have he := h e (List.mem_cons_self e rest)
    have hrest : ∀ x ∈ rest, isScrollEvent x = true :=
      fun x hx => h x (List.mem_cons_of_mem e hx)
    cases e with
    | switch k => exact absurd he (by simp [isScrollEvent])
    | backgroundLoaded k => exact absurd he (by simp [isScrollEvent])
    | scroll sections y vh =>
      have hlen : 2 ≤ sections.length := by
        simpa [isScrollEvent] using he
      unfold runEvents
      simp only [applyEvent]
      rw [handleScroll_emptyScene sections y vh hlen]
      exact ih hrest

/-- Claim C3 (confirmed): under total asset-load failure (no model ever
registered, no current model), every sequence of scroll events over layouts
with at least two sections terminates normally (never `none`) and leaves the
empty viewer state unchanged — the viewer merely shows nothing.  The same
holds for a single invocation of the second entry point's handler. -/
theorem totalFailure_scroll_safe (es : List ViewerEvent)
    (h : ∀ e ∈ es, isScrollEvent e = true) :
    runEvents emptyScene es = some emptyScene ∧
    (∀ (isSol : Bool) (sections : List ScrollSection) (y vh : ℚ),
      2 ≤ sections.length →
      handleScrollAlt isSol sections y vh emptyScene = some emptyScene) := by
  refine ⟨runEvents_emptyScene es h, ?_⟩
  intro isSol sections y vh hlen
  cases isSol with
  | true =>
    have hred : handleScrollAlt true sections y vh emptyScene =
        some (scanSections sections y vh emptyScene) := by
      simp [handleScrollAlt]
    rw [hred, scanSections_emptyScene]
  | false =>
    cases sections with
    | nil => simp at hlen
    | cons a rest =>
      cases rest with
      | nil => simp at hlen
      | cons b rest2 =>
        have hred : handleScrollAlt false (a :: b :: rest2) y vh emptyScene =
            if y < b.offsetTop - vh / 2 then showCarIfHome emptyScene
            else some (scanSections (a :: b :: rest2) y vh emptyScene) := by
          simp [handleScrollAlt]
        rw [hred]
        split
        · rfl
        · rw [scanSections_emptyScene]

/-- Claim C3 witness: the theorem evaluated on two concrete scroll events. -/
theorem totalFailure_scroll_safe_witness :
    runEvents emptyScene
      [ViewerEvent.scroll [⟨0, 300, none⟩, ⟨300, 300, some "livingroom"⟩] 0 600,
       ViewerEvent.scroll [⟨0, 300, none⟩, ⟨300, 300, some "livingroom"⟩] 450 600] =
      some emptyScene ∧
    handleScrollAlt false [⟨0, 300, none⟩, ⟨300, 300, some "livingroom"⟩] 450 600 emptyScene =
      some emptyScene := by
  have h := totalFailure_scroll_safe
    [ViewerEvent.scroll [⟨0, 300, none⟩, ⟨300, 300, some "livingroom"⟩] 0 600,
     ViewerEvent.scroll [⟨0, 300, none⟩, ⟨300, 300, some "livingroom"⟩] 450 600]
    (by decide)
  exact ⟨h.1, h.2 false _ 450 600 (by decide)⟩

/-! ## Claims C7 and C9: scroll ranges -/


theorem showCarIfHome_some (st : SceneState) (c : String)
    (hc : st.currentModel = some c) :
    showCarIfHome st =
      if (lookupKey st.models "car").isSome = true then
        if c = "car" then some st
        else some (showModel { st with models := setVisible st.models c false } "car")
      else none := by
  simp only [showCarIfHome, hc]

theorem handleScroll_reduce (sections : List ScrollSection) (s1 : ScrollSection)
    (y vh : ℚ) (st : SceneState) (h1 : sections[1]? = some s1) :
    handleScroll sections y vh st =
      if y < s1.offsetTop - vh / 2 then showCarIfHome st
      else some (scanSections (sections.drop 1) y vh st) := by
  simp only [handleScroll, h1]

/-- Claim C7 (confirmed): for every scroll offset strictly below the second
section's lower bound, with the car model loaded and some model current (as
is the case whenever the car has loaded), the scroll handler terminates with
the car as the current model, regardless of the first section's `modelKey`. -/
theorem handleScroll_home_resolves_car (sections : List ScrollSection)
    (scrollY vh : ℚ) (st : SceneState) (s1 : ScrollSection)
    (h1 : sections[1]? = some s1)
    (h2 : scrollY < s1.offsetTop - vh / 2)
    (hcar : (lookupKey st.models "car").isSome = true)
    (c : String) (hc : st.currentModel = some c) :
    ∃ st2, handleScroll sections scrollY vh st = some st2 ∧
      st2.currentModel = some "car" := by
  rw [handleScroll_reduce sections s1 scrollY vh st h1, if_pos h2,
    showCarIfHome_some st c hc, if_pos hcar]
  by_cases hck : c = "car"
  · rw [if_pos hck]
    exact ⟨st, rfl, by rw [hc, hck]⟩
  · rw [if_neg hck]
    exact ⟨_, rfl, rfl⟩

/-- Claim C7 witness: the theorem evaluated at a concrete layout whose first
section names a different model. -/
theorem handleScroll_home_resolves_car_witness :
    ∃ st2,
      handleScroll [⟨0, 100, some "livingroom"⟩, ⟨600, 100, some "bedroom"⟩] 50 200
          ⟨[("car", false), ("livingroom", true)], some "livingroom", some "livingroom"⟩ =
        some st2 ∧
      st2.currentModel = some "car" := by
  refine handleScroll_home_resolves_car _ 50 200 _ ⟨600, 100, some "bedroom"⟩ rfl
    (by norm_num) rfl "livingroom" rfl

/-- Claim C9 (confirmed): a section's active range is exactly the half-open
interval from `offsetTop - viewportHeight/2` (inclusive, for sections of
positive height) to `offsetTop + offsetHeight - viewportHeight/2`
(exclusive). -/
theorem sectionMatches_half_open (s : ScrollSection) (vh : ℚ) :
    (∀ y : ℚ, sectionMatches y vh s = true ↔
      (s.offsetTop - vh / 2 ≤ y ∧ y < s.offsetTop + s.offsetHeight - vh / 2)) ∧
    (0 < s.offsetHeight → sectionMatches (s.offsetTop - vh / 2) vh s = true) ∧
    sectionMatches (s.offsetTop + s.offsetHeight - vh / 2) vh s = false := by
  refine ⟨fun y => ?_, fun hh => ?_, ?_⟩
  · simp [sectionMatches]
  · simp [sectionMatches]
    linarith
  · simp [sectionMatches]

/-- Claim C9 witness: the theorem evaluated at a concrete section, at both
boundary offsets. -/
theorem sectionMatches_half_open_witness :
    sectionMatches ((100 : ℚ) - 80 / 2) 80 ⟨100, 50, none⟩ = true ∧
    sectionMatches ((100 : ℚ) + 50 - 80 / 2) 80 ⟨100, 50, none⟩ = false := by
  refine ⟨(sectionMatches_half_open ⟨100, 50, none⟩ 80).2.1 (by norm_num), ?_⟩
  exact (sectionMatches_half_open ⟨100, 50, none⟩ 80).2.2

/-! ## Claim C6: the two entry points' scroll handlers -/


theorem handleScrollAlt_reduce (sections : List ScrollSection) (s1 : ScrollSection)
    (y vh : ℚ) (st : SceneState) (h1 : sections[1]? = some s1) :
    handleScrollAlt false sections y vh st =
      if y < s1.offsetTop - vh / 2 then showCarIfHome st
      else some (scanSections sections y vh st) := by
  simp only [handleScrollAlt, h1, Bool.false_eq_true, if_false]

/-- Claim C6 (corrected): on the main page the two entry points' scroll
handlers agree whenever the first section's active range does not contain the
scroll offset (e.g. for non-overlapping section layouts); in general they can
differ, because only src/main.js skips index 0 in the section scan. -/
theorem handleScroll_entrypoint_equiv (sections : List ScrollSection) (y vh : ℚ)
    (st : SceneState)
    (h : ∀ s0, sections.head? = some s0 → sectionMatches y vh s0 = false) :
    handleScroll sections y vh st = handleScrollAlt false sections y vh st := by
  cases sections with
  | nil => rfl
  | cons a rest =>
    cases rest with
    | nil => rfl
    | cons b rest2 =>
      have h0 : sectionMatches y vh a = false := h a rfl
      have h1b : (a :: b :: rest2)[1]? = some b := by simp
      rw [handleScroll_reduce _ b y vh st h1b, handleScrollAlt_reduce _ b y vh st h1b]
      split
      · rfl
      · have hskip : scanSections (a :: b :: rest2) y vh st =
            scanSections (b :: rest2) y vh st := by
          unfold scanSections
          rw [List.foldl_cons, if_neg (by simp [h0])]
        rw [List.drop_succ_cons, List.drop_zero, hskip]

/-- Claim C6 counterexample: with an oversized first section overlapping the
second, the two handlers produce different final states — src/main.js keeps
the car current while the second entry point switches to the first section's
model. -/
theorem handleScroll_entrypoints_differ :
    handleScroll [⟨0, 2000, some "livingroom"⟩, ⟨100, 100, some "bedroom"⟩] 50 100
        ⟨[("car", true), ("livingroom", false)], some "car", some "car"⟩ ≠
      handleScrollAlt false [⟨0, 2000, some "livingroom"⟩, ⟨100, 100, some "bedroom"⟩] 50 100
        ⟨[("car", true), ("livingroom", false)], some "car", some "car"⟩ ∧
    (handleScroll [⟨0, 2000, some "livingroom"⟩, ⟨100, 100, some "bedroom"⟩] 50 100
        ⟨[("car", true), ("livingroom", false)], some "car", some "car"⟩).map
      SceneState.currentModel = some (some "car") ∧
    (handleScrollAlt false [⟨0, 2000, some "livingroom"⟩, ⟨100, 100, some "bedroom"⟩] 50 100
        ⟨[("car", true), ("livingroom", false)], some "car", some "car"⟩).map
      SceneState.currentModel = some (some "livingroom") := by
  have hm : handleScroll [⟨0, 2000, some "livingroom"⟩, ⟨100, 100, some "bedroom"⟩] 50 100
      ⟨[("car", true), ("livingroom", false)], some "car", some "car"⟩ =
      some ⟨[("car", false), ("livingroom", false)], some "car", some "car"⟩ := by
    norm_num +decide [handleScroll, scanSections, sectionMatches, switchModel, hideCurrent,
      showModel, setVisible, lookupKey, showCarIfHome]
  have ha : handleScrollAlt false [⟨0, 2000, some "livingroom"⟩, ⟨100, 100, some "bedroom"⟩]
      50 100 ⟨[("car", true), ("livingroom", false)], some "car", some "car"⟩ =
      some ⟨[("car", false), ("livingroom", false)], some "livingroom", some "livingroom"⟩ := by
    norm_num +decide [handleScrollAlt, scanSections, sectionMatches, switchModel, hideCurrent,
      showModel, setVisible, lookupKey, showCarIfHome]
  refine ⟨?_, by rw [hm]; rfl, by rw [ha]; rfl⟩
  rw [hm, ha]
  intro hEq
  simp at hEq

/-- Claim C6 witness: the amended equivalence evaluated at a concrete
non-overlapping layout. -/
theorem handleScroll_entrypoint_equiv_witness :
    handleScroll [⟨0, 100, some "livingroom"⟩, ⟨100, 100, some "bedroom"⟩] 150 100
        ⟨[("car", true)], some "car", some "car"⟩ =
      handleScrollAlt false [⟨0, 100, some "livingroom"⟩, ⟨100, 100, some "bedroom"⟩] 150 100
        ⟨[("car", true)], some "car", some "car"⟩ := by
  refine handleScroll_entrypoint_equiv _ 150 100 _ ?_
  intro s0 hs0
  injection hs0 with hs1
  subst hs1
  norm_num [sectionMatches]

/-! ## Claim C4: prepareModel centering and scaling -/


theorem vmin_sub (a b c : Vec3) : vmin (a - c) (b - c) = vmin a b - c := by
  ext <;> simp [vmin, min_sub_sub_right]

theorem vmax_sub (a b c : Vec3) : vmax (a - c) (b - c) = vmax a b - c := by
  ext <;> simp [vmax, max_sub_sub_right]

theorem foldl_vmin_map_sub (l : List Vec3) (a c : Vec3) :
    (l.map (fun v => v - c)).foldl vmin (a - c) = l.foldl vmin a - c := by
  induction l generalizing a with
  | nil => rfl
  | cons p rest ih =>
    simp only [List.map_cons, List.foldl_cons, vmin_sub]
    exact ih (vmin a p)

theorem foldl_vmax_map_sub (l : List Vec3) (a c : Vec3) :
    (l.map (fun v => v - c)).foldl vmax (a - c) = l.foldl vmax a - c := by
  induction l generalizing a with
  | nil => rfl
  | cons p rest ih =>
    simp only [List.map_cons, List.foldl_cons, vmax_sub]
    exact ih (vmax a p)

theorem boxCenter_map_sub (l : List Vec3) (c : Vec3) (hl : l ≠ []) :
    boxCenter (l.map (fun v => v - c)) = boxCenter l - c := by
  cases l with
  | nil => exact absurd rfl hl
  | cons p rest =>
    simp only [List.map_cons, boxCenter, foldl_vmin_map_sub, foldl_vmax_map_sub]
    ext <;> simp <;> ring

theorem localPoints_prepareModel (n : Node3D) (isCar : Bool) :
    localPoints (prepareModel n isCar) = localPoints n := by
  simp only [localPoints, prepareModel]
  rw [List.map_map]
  have hpm : Mesh.points ∘ prepareMesh = Mesh.points := funext (fun m => rfl)
  rw [hpm]

theorem worldPoints_prepareModel (n : Node3D) (isCar : Bool)
    (hs : n.scale =
      (if isCar then (⟨12/10, 12/10, 12/10⟩ : Vec3) else ⟨8/10, 8/10, 8/10⟩)) :
    worldPoints (prepareModel n isCar) =
      (worldPoints n).map (fun v => v - boxCenter (worldPoints n)) := by
  have hpos : (prepareModel n isCar).position =
      n.position - boxCenter (worldPoints n) := by
    simp [prepareModel]
  have hscale : (prepareModel n isCar).scale = n.scale := by
    cases isCar <;> simp_all [prepareModel]
  obtain ⟨c, hc⟩ : ∃ c, boxCenter (worldPoints n) = c := ⟨_, rfl⟩
  rw [hc] at hpos ⊢
  unfold worldPoints
  rw [localPoints_prepareModel, List.map_map]
  congr 1
  funext p
  simp only [Function.comp]
  rw [hpos, hscale]
  ext <;> simp <;> ring

/-- Claim C4 (corrected): `prepareModel` always returns a node whose scale
is `(1.2,1.2,1.2)` if primary and `(0.8,0.8,0.8)` otherwise, but its
bounding-box center lands at the origin only when the input scale already
equals the applied scale (the code centers before rescaling), not
independently of the input transform. -/
theorem prepareModel_scale_center (n : Node3D) (isCar : Bool) :
    (prepareModel n isCar).scale =
      (if isCar then (⟨12/10, 12/10, 12/10⟩ : Vec3) else ⟨8/10, 8/10, 8/10⟩) ∧
    (n.scale = (if isCar then (⟨12/10, 12/10, 12/10⟩ : Vec3) else ⟨8/10, 8/10, 8/10⟩) →
      boxCenter (worldPoints (prepareModel n isCar)) = ⟨0, 0, 0⟩) := by
  constructor
  · cases isCar <;> simp [prepareModel]
  · intro hs
    cases hwp : worldPoints n with
    | nil =>
      have hl : localPoints n = [] := by
        have hlen := congrArg List.length hwp
        simpa [worldPoints] using hlen
      have hw2 : worldPoints (prepareModel n isCar) = [] := by
        unfold worldPoints
        rw [localPoints_prepareModel, hl]
        rfl
      rw [hw2]
      rfl
    | cons p rest =>
      rw [worldPoints_prepareModel n isCar hs, hwp,
        boxCenter_map_sub _ _ (by simp)]
      ext <;> simp

/-- Claim C4 counterexample: a node with identity input scale and local
geometry centred at x = 10 is centred and then rescaled to 0.8, leaving its
bounding-box center at x = -2, far outside any floating-point tolerance of
the origin. -/
theorem prepareModel_center_off_origin :
    (prepareModel ⟨⟨0, 0, 0⟩, ⟨1, 1, 1⟩, [⟨[⟨10, 0, 0⟩], false, false, none⟩]⟩
        false).scale = ⟨8/10, 8/10, 8/10⟩ ∧
    boxCenter (worldPoints (prepareModel ⟨⟨0, 0, 0⟩, ⟨1, 1, 1⟩,
        [⟨[⟨10, 0, 0⟩], false, false, none⟩]⟩ false)) = ⟨-2, 0, 0⟩ ∧
    boxCenter (worldPoints (prepareModel ⟨⟨0, 0, 0⟩, ⟨1, 1, 1⟩,
        [⟨[⟨10, 0, 0⟩], false, false, none⟩]⟩ false)) ≠ ⟨0, 0, 0⟩ := by
  have hc : boxCenter (worldPoints (prepareModel ⟨⟨0, 0, 0⟩, ⟨1, 1, 1⟩,
      [⟨[⟨10, 0, 0⟩], false, false, none⟩]⟩ false)) = ⟨-2, 0, 0⟩ := by
    ext <;>
      norm_num [boxCenter, worldPoints, localPoints, prepareModel, prepareMesh, vmin, vmax]
  refine ⟨?_, hc, fun h => ?_⟩
  · norm_num [prepareModel]
  · rw [hc] at h
    have hx := congrArg Vec3.x h
    norm_num at hx

/-- Claim C4 witness: the amended theorem evaluated at a node whose input
scale already equals 0.8. -/
theorem prepareModel_scale_center_witness :
    boxCenter (worldPoints (prepareModel ⟨⟨5, 7, -3⟩, ⟨8/10, 8/10, 8/10⟩,
      [⟨[⟨10, 0, 0⟩, ⟨2, 4, 6⟩], false, false, none⟩]⟩ false)) = ⟨0, 0, 0⟩ :=
  (prepareModel_scale_center _ false).2 (by norm_num)

/-! ## Claims C5 and C8: background loading -/


/-- Claim C5 counterexample: after one `loadOtherModels()` call the
livingroom load is in flight (status loading), and a second invocation
initiates a second load for that key — the claimed loading/loaded guard does
not exist in the code. -/
theorem loadOtherModels_reloads :
    countRequests (loadOtherModels (loadOtherModels initialLoader)) "livingroom" = 2 ∧
    countRequests (loadOtherModels initialLoader) "livingroom" = 1 := by
  constructor <;> decide

/-- Claim C5 (corrected): `loadOtherModels` unconditionally initiates
exactly one new load per configured entry, whatever the state of previous
requests — each invocation increments every configured key's request count
by one; idempotence per session holds only because each entry point invokes
it at most once per load-outcome path. -/
theorem loadOtherModels_unconditional (ls : LoaderState) :
    (loadOtherModels ls).requests = ls.requests ++ modelPaths ∧
    ∀ k ∈ modelPaths.map Prod.fst,
      countRequests (loadOtherModels ls) k = countRequests ls k + 1 := by
  refine ⟨rfl, ?_⟩
  intro k hk
  unfold countRequests loadOtherModels
  rw [List.filter_append, List.length_append]
  congr 1
  simp only [modelPaths, List.map_cons, List.map_nil, List.mem_cons,
    List.not_mem_nil, or_false] at hk
  rcases hk with rfl | rfl | rfl <;> decide

/-- Claim C5 witness: the amended theorem evaluated at the initial loader
state and the bedroom key. -/
theorem loadOtherModels_unconditional_witness :
    countRequests (loadOtherModels initialLoader) "bedroom" =
      countRequests initialLoader "bedroom" + 1 :=
  (loadOtherModels_unconditional initialLoader).2 "bedroom" (by decide)

theorem runLoadEvents_lookup (ls : LoaderState) (es : List LoadEvent) (k : String) :
    (lookupKey (runLoadEvents ls es).viewer.models k).isSome = true ↔
      ((lookupKey ls.viewer.models k).isSome = true ∨ LoadEvent.success k ∈ es) := by
  induction es generalizing ls with
  | nil => simp [runLoadEvents]
  | cons e rest ih =>
    have hstep : runLoadEvents ls (e :: rest) =
        runLoadEvents (applyLoadEvent ls e) rest := rfl
    rw [hstep, ih]
    cases e with
    | failure j =>
      simp only [applyLoadEvent, onOtherFailed, List.mem_cons]
      constructor
      · rintro (h | h)
        · exact Or.inl h
        · exact Or.inr (Or.inr h)
      · rintro (h | h | h)
        · exact Or.inl h
        · cases h
        · exact Or.inr h
    | success j =>
      simp only [applyLoadEvent, onOtherLoaded, registerBackground]
      rw [lookupKey_storeModel_isSome]
      simp only [List.mem_cons, LoadEvent.success.injEq]
      tauto

/-- Claim C8 (confirmed): background loading initiates one load per
configured entry; a failure callback is a strict no-op, so deleting a failure
event from any completion interleaving changes nothing (one failure never
blocks or cancels the others); a key ends up registered iff it was already
registered or its load succeeded (a failed key is never registered); and the
primary-load error callback leaves the scene untouched, still triggering the
background loads without propagating any error. -/
theorem backgroundLoading_partial_failure (ls : LoaderState) (es : List LoadEvent) :
    (loadOtherModels ls).requests = ls.requests ++ modelPaths ∧
    (∀ k, applyLoadEvent ls (LoadEvent.failure k) = ls) ∧
    (∀ es1 es2 k, runLoadEvents ls (es1 ++ LoadEvent.failure k :: es2) =
      runLoadEvents ls (es1 ++ es2)) ∧
    (∀ k, (lookupKey (runLoadEvents ls es).viewer.models k).isSome = true ↔
      ((lookupKey ls.viewer.models k).isSome = true ∨ LoadEvent.success k ∈ es)) ∧
    (onCarFailed ls).viewer = ls.viewer ∧
    (onCarFailed ls).requests = ls.requests ++ modelPaths := by
  refine ⟨rfl, fun k => rfl, ?_, fun k => runLoadEvents_lookup ls es k, rfl, rfl⟩
  intro es1 es2 k
  have hf : ∀ x : LoaderState, applyLoadEvent x (LoadEvent.failure k) = x := fun x => rfl
  simp only [runLoadEvents, List.foldl_append, List.foldl_cons, hf]

/-- Claim C8 witness: scenario B — with bedroom failing and livingroom
succeeding after the car loaded, the final registry holds exactly car and
livingroom. -/
theorem backgroundLoading_partial_failure_witness :
    (lookupKey (runLoadEvents (onCarLoaded initialLoader)
        [LoadEvent.failure "bedroom", LoadEvent.success "livingroom"]).viewer.models
      "car").isSome = true ∧
    (lookupKey (runLoadEvents (onCarLoaded initialLoader)
        [LoadEvent.failure "bedroom", LoadEvent.success "livingroom"]).viewer.models
      "livingroom").isSome = true ∧
    (lookupKey (runLoadEvents (onCarLoaded initialLoader)
        [LoadEvent.failure "bedroom", LoadEvent.success "livingroom"]).viewer.models
      "bedroom").isSome = false := by
  have h := (backgroundLoading_partial_failure (onCarLoaded initialLoader)
    [LoadEvent.failure "bedroom", LoadEvent.success "livingroom"]).2.2.2.1
  refine ⟨(h "car").mpr (Or.inl (by decide)), (h "livingroom").mpr (Or.inr (by decide)), ?_⟩
  cases hb : (lookupKey (runLoadEvents (onCarLoaded initialLoader)
      [LoadEvent.failure "bedroom", LoadEvent.success "livingroom"]).viewer.models
      "bedroom").isSome
  · rfl
  · exact absurd ((h "bedroom").mp hb) (by decide)

end Omicli
